import Mathlib

/-!
Shallow embedding of `src/video2audio.py` (a video → audio batch converter that
orchestrates an external ffmpeg engine), together with proofs of the spec claims.

Effects are made explicit: the operating system is an `Env` (filesystem node map,
directory listings, `os.makedirs` success, and the external engine's behaviour on a
given command line), and each Python function becomes a pure Lean function from the
`Env` and its arguments to a record of its observable behaviour (returned value,
directories created, engine command issued, whether stderr was captured, detail text
logged).  Python exceptions escaping a function are modelled as a `none` / `raised`
result.  String/path helpers mirror the POSIX `os.path` semantics the script runs
under (`dirname`, `basename`, `splitext`, `join`) and `glob` module matching
(case-sensitive on POSIX, hidden files excluded).
-/

namespace VideoToAudio

/-! ### POSIX path helpers (`os.path` on a POSIX system) -/

/-- True when the string's first character is `c`. -/
def strHeadIs (c : Char) (s : String) : Bool :=
  match s.toList with
  | [] => false
  | d :: _ => d = c

/-- True when the string's last character is `c`. -/
def strLastIs (c : Char) (s : String) : Bool :=
  match s.toList.reverse with
  | [] => false
  | d :: _ => d = c

/-- `os.path.join(a, b)` for a single POSIX component: an absolute `b` replaces `a`;
otherwise a separator is inserted unless `a` is empty or already ends in one. -/
def pyJoin (a b : String) : String :=
  if strHeadIs '/' b then b
  else if a = "" || strLastIs '/' a then a ++ b
  else a ++ "/" ++ b

/-- `posixpath.dirname`: the part before the last `/`, with trailing separators
stripped unless the result is all separators; empty when there is no `/`. -/
def pyDirname (p : String) : String :=
  let r := p.toList.reverse
  let h := r.dropWhile (fun c => c ≠ '/')
  if h.isEmpty then ""
  else if h.all (fun c => c = '/') then String.mk h.reverse
  else String.mk ((h.dropWhile (fun c => c = '/')).reverse)

/-- `posixpath.basename`: the part after the last `/`. -/
def pyBasename (p : String) : String :=
  String.mk (p.toList.reverse.takeWhile (fun c => c ≠ '/')).reverse

/-- Index of the last occurrence of `c` in `cs`, starting the count at `i`
(`str.rfind` restricted to single characters). -/
def lastIdxFrom (c : Char) : List Char → Nat → Option Nat
  | [], _ => none
  | x :: xs, i =>
      match lastIdxFrom c xs (i + 1) with
      | some j => some j
      | none => if x = c then some i else none

/-- The root part of `posixpath.splitext`: split at the last dot of the final
component, unless every character between the last separator and that dot is a dot
(so `.bashrc` keeps its name). -/
def pySplitextRoot (p : String) : String :=
  let cs := p.toList
  let start := match lastIdxFrom '/' cs 0 with
    | some i => i + 1
    | none => 0
  match lastIdxFrom '.' cs 0 with
  | none => p
  | some d =>
      if start ≤ d && ((cs.drop start).take (d - start)).any (fun ch => ch ≠ '.') then
        String.mk (cs.take d)
      else p

/-- ASCII upper-casing, `str.upper` on the extension patterns used here. -/
def strUpper (s : String) : String :=
  String.mk (s.toList.map Char.toUpper)

/-! ### The operating-system environment -/

/-- Kind of filesystem entry a path refers to. -/
inductive FsNode
  | file
  | dir
  | absent
deriving DecidableEq, Repr

/-- Behaviour of one external-engine run: exit success and the stderr text it
produces. -/
structure EngineBehavior where
  ok : Bool
  stderr : String
deriving DecidableEq, Repr

/-- The ambient operating system as seen by the script: what each path is, each
directory's entries, whether `os.makedirs(_, exist_ok=True)` succeeds on a path, how
the external engine behaves on a command line, and whether the engine binary is
available to the startup probe (`check_ffmpeg`). -/
structure Env where
  ffmpegOk : Bool
  fs : String → FsNode
  listing : String → List String
  makedirsOk : String → Bool
  engine : List String → EngineBehavior

/-! ### The Conversion Unit: `convert_video_to_audio` -/

/-- The ffmpeg command line built by `convert_video_to_audio` (source lines 64–86):
input file, `-vn` to drop the video stream, codec arguments chosen by format
(mp3 → `libmp3lame` with bitrate `quality`; wav → `pcm_s16le`; anything else →
`copy`), then the output path. -/
def ffmpegCmd (input_path output_path audio_format quality : String) : List String :=
  ["ffmpeg", "-i", input_path, "-vn"] ++
  (if audio_format = "mp3" then ["-c:a", "libmp3lame", "-b:a", quality]
   else if audio_format = "wav" then ["-c:a", "pcm_s16le"]
   else ["-c:a", "copy"]) ++
  [output_path]

/-- `os.path.dirname(output_path) or '.'` — the directory handed to `os.makedirs`. -/
def dirnameOrDot (p : String) : String :=
  let d := pyDirname p
  if d = "" then "." else d

/-- Observable behaviour of one `convert_video_to_audio` call.
`result = some b` is a normal `return b`; `result = none` means an exception
escaped the call (the code has no handler around `os.makedirs`).
`mkdirTarget` is the path passed to `os.makedirs` (if reached), `cmd` the engine
command line issued (if reached), `stderrCaptured` whether the run attached a pipe
to the engine's stderr, and `detailLogged` the stderr detail text the error handler
logs (if any). -/
structure ConvRun where
  result : Option Bool
  mkdirTarget : Option String
  cmd : Option (List String)
  stderrCaptured : Bool
  detailLogged : Option String
deriving DecidableEq, Repr

/-- `convert_video_to_audio` (source lines 42–108).  Checks `os.path.exists` (any
node kind) and returns `False` early when absent; runs `os.makedirs` on the output
parent with no exception handler; builds `ffmpegCmd` and runs the engine, piping
stderr exactly when not verbose; on engine failure logs detail only under
`if verbose and e.stderr`, and returns `False`. -/
def convert_video_to_audio (env : Env) (input_path output_path audio_format quality : String)
    (verbose : Bool) : ConvRun :=
  if env.fs input_path = FsNode.absent then
    ⟨some false, none, none, false, none⟩
  else if env.makedirsOk (dirnameOrDot output_path) = false then
    ⟨none, some (dirnameOrDot output_path), none, false, none⟩
  else if (env.engine (ffmpegCmd input_path output_path audio_format quality)).ok then
    ⟨some true, some (dirnameOrDot output_path),
      some (ffmpegCmd input_path output_path audio_format quality), !verbose, none⟩
  else
    ⟨some false, some (dirnameOrDot output_path),
      some (ffmpegCmd input_path output_path audio_format quality), !verbose,
      -- `e.stderr` is the captured pipe content (`None` when verbose runs attach no
      -- pipe); the handler logs it only under `if verbose and e.stderr:`.
      match (if verbose then none
             else some (env.engine (ffmpegCmd input_path output_path audio_format quality)).stderr :
             Option String) with
      | none => none
      | some s => if verbose ∧ s ≠ "" then some s else none⟩

/-! ### Batch enumeration (`batch_convert`, lines 131–139) -/

/-- The glob patterns of line 132, verbatim. -/
def video_extensions : List String :=
  ["*.mp4", "*.avi", "*.mov", "*.mkv", "*.wmv", "*.flv", "*.webm"]

/-- `glob` hides entries whose name starts with a dot when the pattern does not. -/
def notHidden (name : String) : Bool :=
  match name.toList with
  | [] => false
  | c :: _ => c ≠ '.'

/-- POSIX `glob`/`fnmatch` matching for the patterns this program uses, which all
have the shape `'*' ++ suffix`: the name must end with `suffix` (matched
case-sensitively, as on a POSIX filesystem) and must not be hidden.  Patterns of any
other shape do not occur here. -/
def globStarMatch (pat name : String) : Bool :=
  match pat.toList with
  | c :: suffix => (c = '*') && notHidden name && decide (suffix <:+ name.toList)
  | [] => false

/-- The pattern sequence the enumeration loop issues: for each extension, the
lower-case pattern, then `ext.upper()` (lines 136–139). -/
def allPatterns : List String :=
  video_extensions.flatMap (fun e => [e, strUpper e])

/-- Names matched in a directory listing, in the order the loop of lines 135–139
accumulates them: all matches of `*.mp4`, then of `*.MP4`, then `*.avi`, … -/
def enumerate_names (listing : List String) : List String :=
  allPatterns.flatMap (fun pat => listing.filter (globStarMatch pat))

/-- The full paths `glob.glob` returns: the matched names joined onto the
slash-terminated input directory. -/
def video_files (env : Env) (input_dir : String) : List String :=
  (enumerate_names (env.listing (pyJoin input_dir ""))).map
    (fun n => pyJoin (pyJoin input_dir "") n)

/-! ### Batch conversion loop (lines 147–162) -/

/-- Output path derivation of lines 150–154: base name of the matched file, its
extension replaced by the target format, joined onto the output directory. -/
def derive_output_path (output_dir video_file audio_format : String) : String :=
  pyJoin output_dir (pySplitextRoot (pyBasename video_file) ++ "." ++ audio_format)

/-- Either the running `(success_count, failure_count)` pair of the loop, or
`raised` when an exception escaped `batch_convert`. -/
inductive BatchResult
  | counts (success_count failure_count : Nat)
  | raised
deriving DecidableEq, Repr

/-- One iteration of the loop of lines 150–159: derive the output path, call the
Conversion Unit, and bump the matching counter; an exception escaping the call
aborts the whole loop. -/
def batch_step (env : Env) (output_dir audio_format quality : String) (verbose : Bool)
    (acc : BatchResult) (video_file : String) : BatchResult :=
  match acc with
  | .raised => .raised
  | .counts s f =>
      match (convert_video_to_audio env video_file
              (derive_output_path output_dir video_file audio_format)
              audio_format quality verbose).result with
      | some true => .counts (s + 1) f
      | some false => .counts s (f + 1)
      | none => .raised

/-- `batch_convert` (lines 110–162): normalise both directories to end in a
separator, `os.makedirs` the output directory (unhandled on failure), enumerate,
and run the loop.  The early `return 0, 0` of line 143 coincides with the fold on
an empty enumeration. -/
def batch_convert (env : Env) (input_dir output_dir audio_format quality : String)
    (verbose : Bool) : BatchResult :=
  if env.makedirsOk (pyJoin output_dir "") = false then .raised
  else
    (video_files env input_dir).foldl
      (batch_step env (pyJoin output_dir "") audio_format quality verbose) (.counts 0 0)

/-- Whether one work item converts successfully (the loop takes the
`success_count += 1` branch for it). -/
def item_succeeds (env : Env) (output_dir audio_format quality : String) (verbose : Bool)
    (video_file : String) : Bool :=
  decide ((convert_video_to_audio env video_file
      (derive_output_path output_dir video_file audio_format)
      audio_format quality verbose).result = some true)

/-- Whether one work item fails with a normal `False` return (the loop takes the
`failure_count += 1` branch for it). -/
def item_fails (env : Env) (output_dir audio_format quality : String) (verbose : Bool)
    (video_file : String) : Bool :=
  decide ((convert_video_to_audio env video_file
      (derive_output_path output_dir video_file audio_format)
      audio_format quality verbose).result = some false)

/-- The work items for which the loop records a failure (each produces one
`logger.error` event inside the Conversion Unit): the model of the per-item failure
detail surfaced by a batch run. -/
def batch_failed_items (env : Env) (input_dir output_dir audio_format quality : String)
    (verbose : Bool) : List String :=
  (video_files env input_dir).filter
    (item_fails env (pyJoin output_dir "") audio_format quality verbose)

/-! ### The batch branch of `main` (lines 211–241) -/

/-- Outcome shape of `main` in batch mode: startup probe failure, the
`os.path.isdir` pre-check failure of lines 226–228 (taken before `batch_convert` is
ever invoked), or a completed call into `batch_convert`. -/
inductive MainBatchResult
  | ffmpegMissing
  | notADirectory
  | ran (r : BatchResult)
deriving DecidableEq, Repr

/-- The batch branch of `main`: `check_ffmpeg`, then the directory pre-check, then
`batch_convert`. -/
def main_batch (env : Env) (input output audio_format quality : String)
    (verbose : Bool) : MainBatchResult :=
  if env.ffmpegOk = false then .ffmpegMissing
  else if env.fs input ≠ FsNode.dir then .notADirectory
  else .ran (batch_convert env input output audio_format quality verbose)

/-- Process exit code of the batch branch (lines 214–241): 1 on probe or pre-check
failure, 1 when any item failed, 0 otherwise; `none` when an exception escaped. -/
def mainBatchExit : MainBatchResult → Option Nat
  | .ffmpegMissing => some 1
  | .notADirectory => some 1
  | .ran .raised => none
  | .ran (.counts _ f) => some (if 0 < f then 1 else 0)

/-! ### Concrete environments used by witnesses and counterexamples -/

/-- Directory `in` holding three videos; the engine is stubbed to fail exactly on
the second one. -/
def envThree : Env where
  ffmpegOk := true
  fs := fun _ => FsNode.file
  listing := fun d => if d = "in/" then ["x1.mp4", "x2.mp4", "x3.mp4"] else []
  makedirsOk := fun _ => true
  engine := fun cmd => { ok := !(cmd.contains "in/x2.mp4"), stderr := "stub failure" }

/-- `d` is an existing directory; every other path is a regular file; the engine
rejects its input as ffmpeg would when handed a directory. -/
def envDirInput : Env where
  ffmpegOk := true
  fs := fun p => if p = "d" then FsNode.dir else FsNode.file
  listing := fun _ => []
  makedirsOk := fun _ => true
  engine := fun _ => { ok := false, stderr := "d: Is a directory" }

/-- A filesystem with no entries at all. -/
def envAbsent : Env where
  ffmpegOk := true
  fs := fun _ => FsNode.absent
  listing := fun _ => []
  makedirsOk := fun _ => true
  engine := fun _ => { ok := true, stderr := "" }

/-- Inputs exist, but the `out` directory cannot be created (for example a
permission failure); `indir` holds one video. -/
def envNoMkdir : Env where
  ffmpegOk := true
  fs := fun _ => FsNode.file
  listing := fun d => if d = "indir/" then ["v.mp4"] else []
  makedirsOk := fun p => !(p == "out" || p == "out/")
  engine := fun _ => { ok := true, stderr := "" }

/-- `in` is an existing directory with no entries. -/
def envEmptyDir : Env where
  ffmpegOk := true
  fs := fun p => if p = "in" then FsNode.dir else FsNode.absent
  listing := fun _ => []
  makedirsOk := fun _ => true
  engine := fun _ => { ok := true, stderr := "" }

/-- Every path is a regular file, so no path is a directory. -/
def envNotDir : Env where
  ffmpegOk := true
  fs := fun _ => FsNode.file
  listing := fun _ => []
  makedirsOk := fun _ => true
  engine := fun _ => { ok := true, stderr := "" }

/-- The engine always exits abnormally, writing `boom` on stderr. -/
def envBoom : Env where
  ffmpegOk := true
  fs := fun _ => FsNode.file
  listing := fun _ => []
  makedirsOk := fun _ => true
  engine := fun _ => { ok := false, stderr := "boom" }

/-- The directory contents of the C2 scenario: lower-, upper- and mixed-case
extensions. -/
def listingMixed : List String := ["a.MP4", "b.mp4", "c.Mp4"]

/-! ### Helper lemmas about enumeration -/

theorem globStarMatch_suffix {pat name : String} (h : globStarMatch pat name = true) :
    pat.toList.tail <:+ name.toList := by
  unfold globStarMatch at h
  split at h
  · rename_i c suffix heq
    rw [heq, List.tail_cons]
    simp only [Bool.and_eq_true, decide_eq_true_eq] at h
    exact h.2
  · exact absurd h (by simp)

/-- No pattern's extension part is a suffix of a different pattern's extension
part, so a single name can match at most one of the fourteen patterns. -/
theorem patterns_suffix_free :
    ∀ p ∈ allPatterns, ∀ p' ∈ allPatterns, p ≠ p' →
      ¬(p.toList.tail <:+ p'.toList.tail) := by decide

theorem allPatterns_nodup : allPatterns.Nodup := by decide

/-- Enumeration never lists the same directory entry twice: the fourteen patterns
match pairwise-disjoint sets of names. -/
theorem enumerate_names_nodup {listing : List String} (h : listing.Nodup) :
    (enumerate_names listing).Nodup := by
  unfold enumerate_names
  rw [List.nodup_flatMap]
  refine ⟨fun pat _ => h.filter _, List.Pairwise.imp_of_mem ?_ allPatterns_nodup⟩
  intro p p' hp hp' hne
  show List.Disjoint _ _
  intro a hap hap'
  rw [List.mem_filter] at hap hap'
  rcases List.suffix_or_suffix_of_suffix (globStarMatch_suffix hap.2)
      (globStarMatch_suffix hap'.2) with hs | hs
  · exact patterns_suffix_free p hp p' hp' hne hs
  · exact patterns_suffix_free p' hp' p hp (Ne.symm hne) hs

/-! ### Helper lemmas about the batch loop -/

/-- When no conversion in `files` lets an exception escape, the loop visits every
item and the final counters are the two partition counts. -/
theorem batch_fold_counts (env : Env) (odir fmt q : String) (v : Bool) :
    ∀ files : List String,
      (∀ vf ∈ files,
        (convert_video_to_audio env vf (derive_output_path odir vf fmt) fmt q v).result ≠ none) →
      ∀ s f : Nat,
        files.foldl (batch_step env odir fmt q v) (.counts s f)
          = .counts (s + files.countP (item_succeeds env odir fmt q v))
                    (f + files.countP (item_fails env odir fmt q v)) := by
  intro files
  induction files with
  | nil => intro _ s f; simp
  | cons a l ih =>
    intro hok s f
    have ha := hok a (List.mem_cons_self a l)
    have hl : ∀ vf ∈ l,
        (convert_video_to_audio env vf (derive_output_path odir vf fmt) fmt q v).result ≠ none :=
      fun vf hv => hok vf (List.mem_cons_of_mem a hv)
    rw [List.foldl_cons]
    cases hres : (convert_video_to_audio env a (derive_output_path odir a fmt) fmt q v).result with
    | none => exact absurd hres ha
    | some b =>
      have hstep : batch_step env odir fmt q v (.counts s f) a
          = (if b then BatchResult.counts (s + 1) f else .counts s (f + 1)) := by
        cases b <;> simp [batch_step, hres]
      cases b
      · rw [hstep, if_neg (by simp), ih hl,
          List.countP_cons_of_neg _ _ (by simp [item_succeeds, hres]),
          List.countP_cons_of_pos _ _ (by simp [item_fails, hres])]
        congr 1
        omega
      · rw [hstep, if_pos rfl, ih hl,
          List.countP_cons_of_pos _ _ (by simp [item_succeeds, hres]),
          List.countP_cons_of_neg _ _ (by simp [item_fails, hres])]
        congr 1
        omega

/-- Every visited item lands in exactly one of the two counters. -/
theorem counts_partition (env : Env) (odir fmt q : String) (v : Bool) :
    ∀ files : List String,
      (∀ vf ∈ files,
        (convert_video_to_audio env vf (derive_output_path odir vf fmt) fmt q v).result ≠ none) →
      files.countP (item_succeeds env odir fmt q v) + files.countP (item_fails env odir fmt q v)
        = files.length := by
  intro files
  induction files with
  | nil => intro _; simp
  | cons a l ih =>
    intro hok
    have ha := hok a (List.mem_cons_self a l)
    have ihl := ih (fun vf hv => hok vf (List.mem_cons_of_mem a hv))
    rw [List.length_cons]
    cases hres : (convert_video_to_audio env a (derive_output_path odir a fmt) fmt q v).result with
    | none => exact absurd hres ha
    | some b =>
      cases b
      · rw [List.countP_cons_of_neg _ _ (by simp [item_succeeds, hres]),
          List.countP_cons_of_pos _ _ (by simp [item_fails, hres])]
        omega
      · rw [List.countP_cons_of_pos _ _ (by simp [item_succeeds, hres]),
          List.countP_cons_of_neg _ _ (by simp [item_fails, hres])]
        omega

/-! ### Claim theorems -/

/-- **C1.** Every engine command line built for a conversion request contains the
video-discard directive `-vn`, and follows the closed format mapping: `mp3` selects
the MP3 codec `libmp3lame` with bitrate equal to the quality argument, `wav`
selects 16-bit linear PCM (`pcm_s16le`) with no extra parameters, and any other
format selects pass-through (`copy`) of the source audio stream without error.
Whenever `convert_video_to_audio` invokes the engine at all, it does so with
exactly this command line. -/
theorem c1_engine_parameter_mapping (i o f q : String) :
    "-vn" ∈ ffmpegCmd i o f q
    ∧ (f = "mp3" →
        ffmpegCmd i o f q = ["ffmpeg", "-i", i, "-vn", "-c:a", "libmp3lame", "-b:a", q, o])
    ∧ (f = "wav" →
        ffmpegCmd i o f q = ["ffmpeg", "-i", i, "-vn", "-c:a", "pcm_s16le", o])
    ∧ (f ≠ "mp3" → f ≠ "wav" →
        ffmpegCmd i o f q = ["ffmpeg", "-i", i, "-vn", "-c:a", "copy", o])
    ∧ (∀ (env : Env) (v : Bool),
        (convert_video_to_audio env i o f q v).cmd = none
        ∨ (convert_video_to_audio env i o f q v).cmd = some (ffmpegCmd i o f q)) := by
  refine ⟨?_, ?_, ?_, ?_, ?_⟩
  · unfold ffmpegCmd; split_ifs <;> simp
  · intro h; subst h; rfl
  · intro h; subst h
    unfold ffmpegCmd
    rw [if_neg (by decide), if_pos rfl]
    rfl
  · intro h1 h2
    unfold ffmpegCmd
    rw [if_neg h1, if_neg h2]
    rfl
  · intro env v
    unfold convert_video_to_audio
    split_ifs <;> first | exact Or.inl rfl | exact Or.inr rfl

/-- Witness for C1 at a concrete request with an unrecognized format. -/
theorem c1_engine_parameter_mapping_witness :
    ("ogg" : String) ≠ "mp3" ∧ ("ogg" : String) ≠ "wav"
    ∧ ffmpegCmd "in.mp4" "out.ogg" "ogg" "192k"
        = ["ffmpeg", "-i", "in.mp4", "-vn", "-c:a", "copy", "out.ogg"] :=
  ⟨by decide, by decide,
    (c1_engine_parameter_mapping "in.mp4" "out.ogg" "ogg" "192k").2.2.2.1
      (by decide) (by decide)⟩

/-- **C2 counterexample.** A directory holding `a.MP4`, `b.mp4`, `c.Mp4` yields
only 2 work items, not the 3 the claim demands: POSIX glob is case-sensitive, so
the lower-case pattern and the `ext.upper()` pattern both miss the mixed-case
`c.Mp4`. -/
theorem c2_mixed_case_counterexample :
    listingMixed = ["a.MP4", "b.mp4", "c.Mp4"]
    ∧ enumerate_names listingMixed = ["b.mp4", "a.MP4"]
    ∧ (enumerate_names listingMixed).length = 2
    ∧ (enumerate_names listingMixed).length ≠ 3 := by decide

/-- **C2 (amended).** Batch enumeration matches the fixed extension set in their
all-lower-case and all-upper-case spellings only; mixed-case extensions are missed,
so `a.MP4`, `b.mp4`, `c.Mp4` yield exactly 2 work items.  No file is counted twice:
every matched name belongs to the listing, and on a duplicate-free listing the
enumeration is duplicate-free, because a name can match at most one of the
case-variant patterns. -/
theorem c2_enumeration_amended (listing : List String) (h : listing.Nodup) :
    (enumerate_names listing).Nodup
    ∧ (∀ n ∈ enumerate_names listing, n ∈ listing)
    ∧ enumerate_names listingMixed = ["b.mp4", "a.MP4"]
    ∧ (enumerate_names listingMixed).length = 2 := by
  refine ⟨enumerate_names_nodup h, ?_, by decide, by decide⟩
  intro n hn
  unfold enumerate_names at hn
  rw [List.mem_flatMap] at hn
  obtain ⟨pat, _, hnf⟩ := hn
  exact (List.mem_filter.mp hnf).1

/-- Witness for C2 (amended) on the concrete mixed-case listing. -/
theorem c2_enumeration_amended_witness :
    listingMixed.Nodup ∧ (enumerate_names listingMixed).Nodup :=
  ⟨by decide, (c2_enumeration_amended listingMixed (by decide)).1⟩

/-- **C3.** Provided no conversion lets an OS exception escape (the engine may
fail arbitrarily), the batch loop processes every enumerated work item with no
early abort, producing exactly one counted outcome per item:
`success_count + failure_count` equals the number of enumerated work items, with
each counter the count of the items the Conversion Unit accepts/rejects —
independent of where in the order the failures sit. -/
theorem c3_batch_processes_all_items (env : Env) (i o fmt q : String) (v : Bool)
    (hmk : env.makedirsOk (pyJoin o "") = true)
    (hconv : ∀ vf ∈ video_files env i,
      (convert_video_to_audio env vf (derive_output_path (pyJoin o "") vf fmt) fmt q v).result
        ≠ none) :
    batch_convert env i o fmt q v
      = .counts ((video_files env i).countP (item_succeeds env (pyJoin o "") fmt q v))
                ((video_files env i).countP (item_fails env (pyJoin o "") fmt q v))
    ∧ (video_files env i).countP (item_succeeds env (pyJoin o "") fmt q v)
        + (video_files env i).countP (item_fails env (pyJoin o "") fmt q v)
      = (video_files env i).length := by
  constructor
  · have h := batch_fold_counts env (pyJoin o "") fmt q v (video_files env i) hconv 0 0
    simp only [Nat.zero_add] at h
    simp [batch_convert, hmk, h]
  · exact counts_partition env (pyJoin o "") fmt q v (video_files env i) hconv

/-- Witness for C3: three inputs, the engine stubbed to fail on exactly the middle
one; the batch continues past the failure and reports 2 successes, 1 failure. -/
theorem c3_batch_processes_all_items_witness :
    envThree.makedirsOk (pyJoin "out" "") = true
    ∧ (∀ vf ∈ video_files envThree "in",
        (convert_video_to_audio envThree vf
          (derive_output_path (pyJoin "out" "") vf "mp3") "mp3" "192k" false).result ≠ none)
    ∧ (video_files envThree "in").length = 3
    ∧ batch_convert envThree "in" "out" "mp3" "192k" false = .counts 2 1 := by
  refine ⟨by decide, by decide, by decide, ?_⟩
  have h := (c3_batch_processes_all_items envThree "in" "out" "mp3" "192k" false
    (by decide) (by decide)).1
  rw [h]
  decide

/-- **C4 counterexample.** The single-file conversion guard is `os.path.exists`,
not "is an existing regular file": on an input path that is an existing
*directory* (hence not a regular file) the claim demands the `InputMissing`
outcome with no engine invocation, but the code passes the check and invokes the
engine on the directory. -/
theorem c4_directory_input_counterexample :
    envDirInput.fs "d" ≠ FsNode.file
    ∧ envDirInput.fs "d" ≠ FsNode.absent
    ∧ (convert_video_to_audio envDirInput "d" "out/a.mp3" "mp3" "192k" false).cmd
        = some (ffmpegCmd "d" "out/a.mp3" "mp3" "192k")
    ∧ (convert_video_to_audio envDirInput "d" "out/a.mp3" "mp3" "192k" false).cmd ≠ none := by
  decide

/-- **C4 (amended).** When `input_path` has no filesystem entry at all
(`os.path.exists` is false), the conversion returns the failure outcome — it does
not throw — before any directory creation or engine invocation.  The check is mere
existence: an existing directory passes it (see the counterexample). -/
theorem c4_input_missing_amended (env : Env) (i o fmt q : String) (v : Bool)
    (h : env.fs i = FsNode.absent) :
    convert_video_to_audio env i o fmt q v = ⟨some false, none, none, false, none⟩ := by
  unfold convert_video_to_audio
  rw [if_pos h]

/-- Witness for C4 (amended) on a wholly empty filesystem. -/
theorem c4_input_missing_amended_witness :
    envAbsent.fs "missing.mp4" = FsNode.absent
    ∧ convert_video_to_audio envAbsent "missing.mp4" "o.mp3" "mp3" "192k" false
        = ⟨some false, none, none, false, none⟩ :=
  ⟨rfl, c4_input_missing_amended envAbsent "missing.mp4" "o.mp3" "mp3" "192k" false rfl⟩

/-- **C5 counterexample.** When the parent of `output_path` cannot be created, the
code does *not* return a typed failure: `os.makedirs` is called with no exception
handler, so the exception escapes `convert_video_to_audio` (result `none` in the
model) — and `batch_convert` likewise aborts with an escaped exception when the
output directory cannot be created, crashing the whole batch. -/
theorem c5_mkdir_failure_counterexample :
    envNoMkdir.fs "in.mp4" = FsNode.file
    ∧ envNoMkdir.makedirsOk "out" = false
    ∧ (convert_video_to_audio envNoMkdir "in.mp4" "out/a.mp3" "mp3" "192k" false).result = none
    ∧ (convert_video_to_audio envNoMkdir "in.mp4" "out/a.mp3" "mp3" "192k" false).mkdirTarget
        = some "out"
    ∧ batch_convert envNoMkdir "indir" "out" "mp3" "192k" false = .raised := by decide

/-- **C5 (amended).** For every conversion whose input exists, the Conversion Unit
does ensure the parent directory of `output_path` (it calls `os.makedirs` with
ancestor creation and `exist_ok` on `dirname(output_path) or '.'`), but when that
creation is impossible the call crashes — the exception escapes before any engine
invocation, and no `OutputDirUnwritable`-style failure value is returned. -/
theorem c5_mkdir_amended (env : Env) (i o fmt q : String) (v : Bool)
    (hex : env.fs i ≠ FsNode.absent) :
    (convert_video_to_audio env i o fmt q v).mkdirTarget = some (dirnameOrDot o)
    ∧ (env.makedirsOk (dirnameOrDot o) = false →
        (convert_video_to_audio env i o fmt q v).result = none
        ∧ (convert_video_to_audio env i o fmt q v).cmd = none) := by
  unfold convert_video_to_audio
  rw [if_neg hex]
  by_cases hmk : env.makedirsOk (dirnameOrDot o) = false
  · rw [if_pos hmk]
    exact ⟨rfl, fun _ => ⟨rfl, rfl⟩⟩
  · rw [if_neg hmk]
    refine ⟨?_, fun h => absurd h hmk⟩
    split <;> rfl

/-- Witness for C5 (amended) at a concrete unwritable output directory. -/
theorem c5_mkdir_amended_witness :
    envNoMkdir.fs "in.mp4" ≠ FsNode.absent
    ∧ ((convert_video_to_audio envNoMkdir "in.mp4" "out/a.mp3" "mp3" "192k" false).mkdirTarget
        = some (dirnameOrDot "out/a.mp3")
      ∧ (envNoMkdir.makedirsOk (dirnameOrDot "out/a.mp3") = false →
          (convert_video_to_audio envNoMkdir "in.mp4" "out/a.mp3" "mp3" "192k" false).result
            = none
          ∧ (convert_video_to_audio envNoMkdir "in.mp4" "out/a.mp3" "mp3" "192k" false).cmd
            = none)) :=
  ⟨by decide, c5_mkdir_amended envNoMkdir "in.mp4" "out/a.mp3" "mp3" "192k" false (by decide)⟩

/-- **C6.** In batch mode, an `input_dir` that is not an existing directory is
rejected by the `os.path.isdir` pre-check — `main` exits with code 1 and
`batch_convert` is never invoked — and this outcome is distinguishable from the
non-error empty report of an existing directory with zero matches, which runs the
batch, returns counts (0, 0) and exits 0. -/
theorem c6_batch_precheck (env env' : Env) (i o i' o' fmt q : String) (v : Bool)
    (hff : env.ffmpegOk = true) (hnd : env.fs i ≠ FsNode.dir)
    (hff' : env'.ffmpegOk = true) (hd : env'.fs i' = FsNode.dir)
    (hmk : env'.makedirsOk (pyJoin o' "") = true)
    (hempty : enumerate_names (env'.listing (pyJoin i' "")) = []) :
    main_batch env i o fmt q v = .notADirectory
    ∧ mainBatchExit (main_batch env i o fmt q v) = some 1
    ∧ main_batch env' i' o' fmt q v = .ran (.counts 0 0)
    ∧ mainBatchExit (main_batch env' i' o' fmt q v) = some 0
    ∧ MainBatchResult.notADirectory ≠ .ran (.counts 0 0) := by
  have h1 : main_batch env i o fmt q v = .notADirectory := by
    simp [main_batch, hff, hnd]
  have hvf : video_files env' i' = [] := by
    simp [video_files, hempty]
  have h2 : main_batch env' i' o' fmt q v = .ran (.counts 0 0) := by
    simp [main_batch, hff', hd, batch_convert, hmk, hvf]
  exact ⟨h1, by rw [h1]; rfl, h2, by rw [h2]; rfl, by decide⟩

/-- Witness for C6: a path that is a plain file is rejected by the pre-check,
while an existing empty directory produces the empty report with exit code 0. -/
theorem c6_batch_precheck_witness :
    envNotDir.fs "vid.mp4" ≠ FsNode.dir
    ∧ envEmptyDir.fs "in" = FsNode.dir
    ∧ main_batch envNotDir "vid.mp4" "out" "mp3" "192k" false = .notADirectory
    ∧ main_batch envEmptyDir "in" "out" "mp3" "192k" false = .ran (.counts 0 0) := by
  have h := c6_batch_precheck envNotDir envEmptyDir "vid.mp4" "out" "in" "out" "mp3" "192k"
    false rfl (by decide) rfl (by decide) rfl (by decide)
  exact ⟨by decide, by decide, h.1, h.2.2.1⟩

/-- **C7 (code bug).** The error-stream pipe is attached exactly when the run is
not verbose, and on abnormal engine exit the captured text is available — but the
detail is *never* included in the failure report: the handler's guard
`if verbose and e.stderr` is unsatisfiable, because `e.stderr` is populated only
on non-verbose runs.  The first conjunct shows the detail log is dead code in
every environment; the rest evaluates the failing input (engine exits abnormally
with stderr `boom`, non-verbose run): the failure is returned, stderr was
captured, yet no detail is logged. -/
theorem c7_detail_never_logged :
    (∀ (env : Env) (i o fmt q : String) (v : Bool),
        (convert_video_to_audio env i o fmt q v).detailLogged = none)
    ∧ (convert_video_to_audio envBoom "in.mp4" "out.mp3" "mp3" "192k" false).result = some false
    ∧ (convert_video_to_audio envBoom "in.mp4" "out.mp3" "mp3" "192k" false).stderrCaptured = true
    ∧ envBoom.engine (ffmpegCmd "in.mp4" "out.mp3" "mp3" "192k") = ⟨false, "boom"⟩
    ∧ (convert_video_to_audio envBoom "in.mp4" "out.mp3" "mp3" "192k" false).detailLogged = none
    ∧ (convert_video_to_audio envBoom "in.mp4" "out.mp3" "mp3" "192k" true).stderrCaptured
        = false := by
  refine ⟨?_, by decide, by decide, by decide, by decide, by decide⟩
  intro env i o fmt q v
  unfold convert_video_to_audio
  split_ifs <;> simp_all

/-- **C8.** The derived output path is a pure function of the matched file's base
name, the target format and the output directory: files with equal base names
derive equal output paths, and `movie.mkv` converted to `wav` with output
directory `/out` always derives `/out/movie.wav`. -/
theorem c8_output_path_derivation (d v1 v2 fmt : String)
    (h : pyBasename v1 = pyBasename v2) :
    derive_output_path d v1 fmt = derive_output_path d v2 fmt
    ∧ derive_output_path (pyJoin "/out" "") "/in/movie.mkv" "wav" = "/out/movie.wav" := by
  constructor
  · unfold derive_output_path
    rw [h]
  · decide

/-- Witness for C8: two files with the same base name in different directories. -/
theorem c8_output_path_derivation_witness :
    pyBasename "/a/movie.mkv" = pyBasename "/b/movie.mkv"
    ∧ derive_output_path "/out/" "/a/movie.mkv" "wav"
        = derive_output_path "/out/" "/b/movie.mkv" "wav"
    ∧ derive_output_path (pyJoin "/out" "") "/in/movie.mkv" "wav" = "/out/movie.wav" := by
  have h := c8_output_path_derivation "/out/" "/a/movie.mkv" "/b/movie.mkv" "wav" (by decide)
  exact ⟨by decide, h.1, h.2⟩

/-- **C9.** An existing input directory with zero matching files produces the
report `(success_count 0, failure_count 0)` with no per-item failures, `main`
exits 0, and this outcome is distinct from the exception outcome. -/
theorem c9_zero_match_report (env : Env) (i o fmt q : String) (v : Bool)
    (hff : env.ffmpegOk = true) (hdir : env.fs i = FsNode.dir)
    (hmk : env.makedirsOk (pyJoin o "") = true)
    (hempty : enumerate_names (env.listing (pyJoin i "")) = []) :
    batch_convert env i o fmt q v = .counts 0 0
    ∧ batch_failed_items env i o fmt q v = []
    ∧ main_batch env i o fmt q v = .ran (.counts 0 0)
    ∧ mainBatchExit (main_batch env i o fmt q v) = some 0
    ∧ BatchResult.counts 0 0 ≠ .raised := by
  have hvf : video_files env i = [] := by
    simp [video_files, hempty]
  have h1 : batch_convert env i o fmt q v = .counts 0 0 := by
    simp [batch_convert, hmk, hvf]
  have h3 : main_batch env i o fmt q v = .ran (.counts 0 0) := by
    simp [main_batch, hff, hdir, h1]
  exact ⟨h1, by simp [batch_failed_items, hvf], h3, by rw [h3]; rfl, by decide⟩

/-- Witness for C9 on a concrete empty directory. -/
theorem c9_zero_match_report_witness :
    envEmptyDir.fs "in" = FsNode.dir
    ∧ enumerate_names (envEmptyDir.listing (pyJoin "in" "")) = []
    ∧ batch_convert envEmptyDir "in" "out" "mp3" "192k" false = .counts 0 0
    ∧ batch_failed_items envEmptyDir "in" "out" "mp3" "192k" false = [] := by
  have h := c9_zero_match_report envEmptyDir "in" "out" "mp3" "192k" false
    rfl (by decide) rfl (by decide)
  exact ⟨by decide, by decide, h.1, h.2.1⟩

/-- **C10.** For a format other than `mp3`, the quality argument is dead: the
constructed engine command line and the entire observable behaviour of the
conversion are identical for any two quality values. -/
theorem c10_quality_independence (env : Env) (i o fmt q1 q2 : String) (v : Bool)
    (h : fmt ≠ "mp3") :
    ffmpegCmd i o fmt q1 = ffmpegCmd i o fmt q2
    ∧ convert_video_to_audio env i o fmt q1 v = convert_video_to_audio env i o fmt q2 v := by
  have hc : ffmpegCmd i o fmt q1 = ffmpegCmd i o fmt q2 := by
    unfold ffmpegCmd
    rw [if_neg h, if_neg h]
  refine ⟨hc, ?_⟩
  unfold convert_video_to_audio
  rw [hc]

/-- Witness for C10 at format `wav` with the two extreme bitrates. -/
theorem c10_quality_independence_witness :
    ("wav" : String) ≠ "mp3"
    ∧ ffmpegCmd "i.mp4" "o.wav" "wav" "128k" = ffmpegCmd "i.mp4" "o.wav" "wav" "320k"
    ∧ convert_video_to_audio envBoom "i.mp4" "o.wav" "wav" "128k" false
        = convert_video_to_audio envBoom "i.mp4" "o.wav" "wav" "320k" false :=
  ⟨by decide,
    (c10_quality_independence envBoom "i.mp4" "o.wav" "wav" "128k" "320k" false (by decide)).1,
    (c10_quality_independence envBoom "i.mp4" "o.wav" "wav" "128k" "320k" false (by decide)).2⟩

end VideoToAudio
